import Mathlib

/-!
# Capital Adequacy Stress Testing — verification development

Shallow embedding of the computation core of
`capital_adequacy_stress_testing.py`: the stress-testing formulas, the
scenario catalog, the what-if composition, the scenario comparison, and
the Monte Carlo loop.  Machine floats are modelled with exact rationals
(`ℚ`); fallible computations (Python `ZeroDivisionError` on float
division by zero, the implicit `None` return of an unmatched scenario
branch, and `np.min`/`np.max` raising on an empty result list) are
modelled with `Option`.
-/

/-- The four bank-financials inputs collected by the sidebar
(`initial_cet1`, `initial_tier1`, `initial_total_capital`,
`risk_weighted_assets`). -/
structure BankFinancials where
  initial_cet1 : ℚ
  initial_tier1 : ℚ
  initial_total_capital : ℚ
  risk_weighted_assets : ℚ
deriving DecidableEq

/-- One scenario's stress magnitudes: `interest_rate_hike`,
`credit_loss_rate`, `market_shock`, each in percent. -/
structure StressTriple where
  interest_rate_hike : ℚ
  credit_loss_rate : ℚ
  market_shock : ℚ
deriving DecidableEq

/-- The quantities derived by the stress-testing logic block
(source lines 92–98). -/
structure StressResult where
  interest_rate_loss : ℚ
  credit_losses : ℚ
  market_shock_loss : ℚ
  total_losses : ℚ
  updated_cet1 : ℚ
  updated_cet1_ratio : ℚ
deriving DecidableEq

/-- `interest_rate_loss = risk_weighted_assets * (interest_rate_hike / 100)`. -/
def interest_rate_loss (f : BankFinancials) (t : StressTriple) : ℚ :=
  f.risk_weighted_assets * (t.interest_rate_hike / 100)

/-- `credit_losses = risk_weighted_assets * (credit_loss_rate / 100)`. -/
def credit_losses (f : BankFinancials) (t : StressTriple) : ℚ :=
  f.risk_weighted_assets * (t.credit_loss_rate / 100)

/-- `market_shock_loss = initial_tier1 * (market_shock / 100)`:
the market-shock loss scales off Tier-1 capital, not RWA. -/
def market_shock_loss (f : BankFinancials) (t : StressTriple) : ℚ :=
  f.initial_tier1 * (t.market_shock / 100)

/-- `total_losses = interest_rate_loss + credit_losses + market_shock_loss`. -/
def total_losses (f : BankFinancials) (t : StressTriple) : ℚ :=
  interest_rate_loss f t + credit_losses f t + market_shock_loss f t

/-- `updated_cet1 = initial_cet1 - total_losses`. -/
def updated_cet1 (f : BankFinancials) (t : StressTriple) : ℚ :=
  f.initial_cet1 - total_losses f t

/-- The stress-testing logic of source lines 92–98 as one fallible
function.  The final line divides by `risk_weighted_assets`; Python
raises `ZeroDivisionError` on float division by zero, so the
computation returns no result when RWA = 0. -/
def compute_result (f : BankFinancials) (t : StressTriple) : Option StressResult :=
  if f.risk_weighted_assets = 0 then none
  else some
    { interest_rate_loss := interest_rate_loss f t
      credit_losses := credit_losses f t
      market_shock_loss := market_shock_loss f t
      total_losses := total_losses f t
      updated_cet1 := updated_cet1 f t
      updated_cet1_ratio := (updated_cet1 f t / f.risk_weighted_assets) * 100 }

/-- The what-if composition (source lines 157–159):
`total_interest_rate = current_interest_rate + what_if_interest_rate_hike`
and likewise for the default rate and the market shock — plain
field-wise addition with no clamping. -/
def compose (base delta : StressTriple) : StressTriple :=
  { interest_rate_hike := base.interest_rate_hike + delta.interest_rate_hike
    credit_loss_rate := base.credit_loss_rate + delta.credit_loss_rate
    market_shock := base.market_shock + delta.market_shock }

/-- `get_scenario_parameters` (source lines 213–236): the sequential
string dispatch.  The "Custom Scenario" branch reads three sliders,
modelled as the explicit argument `custom`; a name matching no branch
falls off the end of the Python function and yields `None`, modelled
as `none`. -/
def get_scenario_parameters (custom : ℚ × ℚ × ℚ) (scenario : String) :
    Option (ℚ × ℚ × ℚ) :=
  if scenario = "Baseline (No Stress)" then some (0, 0, 0)
  else if scenario = "Mild Recession" then some (1, 2, 3)
  else if scenario = "Severe Recession" then some (5/2, 5, 8)
  else if scenario = "Interest Rate Shock" then some (3, 0, 0)
  else if scenario = "Market Crash" then some (0, 0, 10)
  else if scenario = "Credit Crisis" then some (1/2, 8, 3)
  else if scenario = "Inflation Shock" then some (4, 1, 2)
  else if scenario = "Liquidity Stress" then some (0, 3, 5)
  else if scenario = "Currency Devaluation" then some (3/2, 5/2, 6)
  else if scenario = "Custom Scenario" then some custom
  else none

/-- The ten strings offered by the scenario selectboxes. -/
def scenario_names : List String :=
  ["Baseline (No Stress)", "Mild Recession", "Severe Recession",
   "Interest Rate Shock", "Market Crash", "Credit Crisis",
   "Inflation Shock", "Liquidity Stress", "Currency Devaluation",
   "Custom Scenario"]

/-- The per-scenario loss total of the comparison path
(source `total_losses_1` / `total_losses_2`, lines 243–255). -/
def total_losses_scenario (f : BankFinancials) (t : StressTriple) : ℚ :=
  f.risk_weighted_assets * (t.interest_rate_hike / 100)
    + f.risk_weighted_assets * (t.credit_loss_rate / 100)
    + f.initial_tier1 * (t.market_shock / 100)

/-- The per-scenario updated ratio of the comparison path
(source `updated_cet1_ratio_scenario_1` / `_2`). -/
def updated_cet1_ratio_scenario (f : BankFinancials) (t : StressTriple) : ℚ :=
  ((f.initial_cet1 - total_losses_scenario f t) / f.risk_weighted_assets) * 100

/-- The scenario comparison (source lines 243–261): both scenario
ratios and the displayed difference `scenario_2 - scenario_1`.  The
two ratio divisions raise `ZeroDivisionError` when RWA = 0. -/
def compare_scenarios (f : BankFinancials) (t₁ t₂ : StressTriple) : Option (ℚ × ℚ × ℚ) :=
  if f.risk_weighted_assets = 0 then none
  else some
    (updated_cet1_ratio_scenario f t₁,
     updated_cet1_ratio_scenario f t₂,
     updated_cet1_ratio_scenario f t₂ - updated_cet1_ratio_scenario f t₁)

/-- One Monte Carlo draw (source lines 114–116).  The three
`np.random.uniform` calls are modelled against an injected stream
`u : ℕ → ℚ` of unit-interval variates, consumed in call order: draw
`i` uses `u (3*i)`, `u (3*i+1)`, `u (3*i+2)`, scaled to
`[0,5)`, `[0,10)`, `[0,10)` respectively. -/
def simulated_triple (u : ℕ → ℚ) (i : ℕ) : StressTriple :=
  { interest_rate_hike := 5 * u (3 * i)
    credit_loss_rate := 10 * u (3 * i + 1)
    market_shock := 10 * u (3 * i + 2) }

/-- The per-draw ratio of the Monte Carlo loop body
(source `simulated_losses` / `simulated_cet1` / `simulated_cet1_ratio`,
lines 118–126). -/
def simulated_cet1_ratio (f : BankFinancials) (t : StressTriple) : ℚ :=
  ((f.initial_cet1
      - (f.risk_weighted_assets * (t.interest_rate_hike / 100)
          + f.risk_weighted_assets * (t.credit_loss_rate / 100)
          + f.initial_tier1 * (t.market_shock / 100)))
    / f.risk_weighted_assets) * 100

/-- The aggregates reported after the Monte Carlo loop. -/
structure SimulationSummary where
  sample_count : ℤ
  ratios : List ℚ
  mean : ℚ
  min : ℚ
  max : ℚ
deriving DecidableEq

/-- The Monte Carlo simulation (source lines 110–133).
`range(num_simulations)` is empty for `num_simulations ≤ 0`; the loop
body divides by RWA (raising `ZeroDivisionError` when RWA = 0 and at
least one iteration runs); `np.min`/`np.max` raise `ValueError` on an
empty result list, so no summary is produced for a non-positive
sample count. -/
def run_monte_carlo (f : BankFinancials) (num_simulations : ℤ) (u : ℕ → ℚ) :
    Option SimulationSummary :=
  if 0 < num_simulations ∧ f.risk_weighted_assets = 0 then none
  else
    match (List.range num_simulations.toNat).map
        (fun i => simulated_cet1_ratio f (simulated_triple u i)) with
    | [] => none
    | r :: rs => some
        { sample_count := num_simulations
          ratios := r :: rs
          mean := (r :: rs).sum / (r :: rs).length
          min := rs.foldl min r
          max := rs.foldl max r }

/-! ## Helper lemmas on `List.foldl min` / `List.foldl max` and list sums -/

lemma foldl_min_mem (rs : List ℚ) : ∀ r : ℚ, List.foldl min r rs ∈ r :: rs := by
  induction rs with
  | nil => intro r; simp
  | cons a l ih =>
    intro r
    simp only [List.foldl_cons]
    rcases List.mem_cons.mp (ih (min r a)) with h | h
    · rcases min_choice r a with hm | hm
      · exact List.mem_cons.mpr (Or.inl (h.trans hm))
      · exact List.mem_cons.mpr (Or.inr (List.mem_cons.mpr (Or.inl (h.trans hm))))
    · exact List.mem_cons.mpr (Or.inr (List.mem_cons.mpr (Or.inr h)))

lemma foldl_min_le (rs : List ℚ) : ∀ r : ℚ, ∀ x ∈ r :: rs, List.foldl min r rs ≤ x := by
  induction rs with
  | nil => intro r x hx; simp at hx; simp [hx]
  | cons a l ih =>
    intro r x hx
    simp only [List.foldl_cons]
    rcases List.mem_cons.mp hx with h | h
    · subst h
      exact le_trans (ih (min x a) (min x a) (List.mem_cons_self _ _)) (min_le_left _ _)
    · rcases List.mem_cons.mp h with h' | h'
      · subst h'
        exact le_trans (ih (min r x) (min r x) (List.mem_cons_self _ _)) (min_le_right _ _)
      · exact ih (min r a) x (List.mem_cons.mpr (Or.inr h'))

lemma mem_foldl_max (rs : List ℚ) : ∀ r : ℚ, List.foldl max r rs ∈ r :: rs := by
  induction rs with
  | nil => intro r; simp
  | cons a l ih =>
    intro r
    simp only [List.foldl_cons]
    rcases List.mem_cons.mp (ih (max r a)) with h | h
    · rcases max_choice r a with hm | hm
      · exact List.mem_cons.mpr (Or.inl (h.trans hm))
      · exact List.mem_cons.mpr (Or.inr (List.mem_cons.mpr (Or.inl (h.trans hm))))
    · exact List.mem_cons.mpr (Or.inr (List.mem_cons.mpr (Or.inr h)))

lemma le_foldl_max (rs : List ℚ) : ∀ r : ℚ, ∀ x ∈ r :: rs, x ≤ List.foldl max r rs := by
  induction rs with
  | nil => intro r x hx; simp at hx; simp [hx]
  | cons a l ih =>
    intro r x hx
    simp only [List.foldl_cons]
    rcases List.mem_cons.mp hx with h | h
    · subst h
      exact le_trans (le_max_left _ _) (ih (max x a) (max x a) (List.mem_cons_self _ _))
    · rcases List.mem_cons.mp h with h' | h'
      · subst h'
        exact le_trans (le_max_right _ _) (ih (max r x) (max r x) (List.mem_cons_self _ _))
      · exact ih (max r a) x (List.mem_cons.mpr (Or.inr h'))

lemma length_mul_le_sum (l : List ℚ) (m : ℚ) (h : ∀ x ∈ l, m ≤ x) :
    (l.length : ℚ) * m ≤ l.sum := by
  induction l with
  | nil => simp
  | cons a t ih =>
    have ht := ih (fun x hx => h x (List.mem_cons_of_mem _ hx))
    have ha := h a (List.mem_cons_self _ _)
    simp only [List.length_cons, List.sum_cons]
    push_cast
    nlinarith [ht, ha]

lemma sum_le_length_mul (l : List ℚ) (M : ℚ) (h : ∀ x ∈ l, x ≤ M) :
    l.sum ≤ (l.length : ℚ) * M := by
  induction l with
  | nil => simp
  | cons a t ih =>
    have ht := ih (fun x hx => h x (List.mem_cons_of_mem _ hx))
    have ha := h a (List.mem_cons_self _ _)
    simp only [List.length_cons, List.sum_cons]
    push_cast
    nlinarith [ht, ha]

/-- Losses strictly larger ⇒ the stressed ratio strictly smaller
(for a positive denominator). -/
lemma stress_ratio_lt {c R L L' : ℚ} (hR : 0 < R) (h : L < L') :
    ((c - L') / R) * 100 < ((c - L) / R) * 100 := by
  have h1 : c - L' < c - L := by linarith
  have h2 : (c - L') / R < (c - L) / R := (div_lt_div_iff_of_pos_right hR).mpr h1
  linarith

/-! ## Claim theorems -/

/-- Claim C1: `compute_result` returns exactly the six spec formulas:
interest-rate and credit losses scale off RWA, the market-shock loss
scales off Tier-1 capital, total losses are their sum, the updated CET1
is the initial CET1 minus total losses, and the updated ratio is
`(updated_cet1 / RWA) * 100`. -/
theorem compute_result_spec (f : BankFinancials) (t : StressTriple)
    (hR : f.risk_weighted_assets ≠ 0) :
    compute_result f t = some
      { interest_rate_loss := f.risk_weighted_assets * (t.interest_rate_hike / 100)
        credit_losses := f.risk_weighted_assets * (t.credit_loss_rate / 100)
        market_shock_loss := f.initial_tier1 * (t.market_shock / 100)
        total_losses := f.risk_weighted_assets * (t.interest_rate_hike / 100)
          + f.risk_weighted_assets * (t.credit_loss_rate / 100)
          + f.initial_tier1 * (t.market_shock / 100)
        updated_cet1 := f.initial_cet1
          - (f.risk_weighted_assets * (t.interest_rate_hike / 100)
             + f.risk_weighted_assets * (t.credit_loss_rate / 100)
             + f.initial_tier1 * (t.market_shock / 100))
        updated_cet1_ratio := ((f.initial_cet1
          - (f.risk_weighted_assets * (t.interest_rate_hike / 100)
             + f.risk_weighted_assets * (t.credit_loss_rate / 100)
             + f.initial_tier1 * (t.market_shock / 100)))
          / f.risk_weighted_assets) * 100 } := by
  rw [compute_result, if_neg hR]
  rfl

/-- Witness for C1: the spec's concrete example.  On financials
{cet1=1000, tier1=1200, total=1500, RWA=12000} and the Mild Recession
triple (1, 2, 3), the result is (120, 240, 36, 396, 604, 604/12000*100). -/
theorem compute_result_spec_witness :
    (⟨1000, 1200, 1500, 12000⟩ : BankFinancials).risk_weighted_assets ≠ 0 ∧
    compute_result ⟨1000, 1200, 1500, 12000⟩ ⟨1, 2, 3⟩ =
      some ⟨120, 240, 36, 396, 604, 604 / 12000 * 100⟩ := by
  refine ⟨by norm_num, ?_⟩
  rw [compute_result_spec ⟨1000, 1200, 1500, 12000⟩ ⟨1, 2, 3⟩ (by norm_num)]
  norm_num

/-- Claim C3: the what-if composition is exact field-wise addition with
no upper clamping, and it is commutative and associative. -/
theorem compose_add_comm_assoc (a b c : StressTriple) :
    (compose a b).interest_rate_hike = a.interest_rate_hike + b.interest_rate_hike ∧
    (compose a b).credit_loss_rate = a.credit_loss_rate + b.credit_loss_rate ∧
    (compose a b).market_shock = a.market_shock + b.market_shock ∧
    compose a b = compose b a ∧
    compose (compose a b) c = compose a (compose b c) := by
  refine ⟨rfl, rfl, rfl, ?_, ?_⟩ <;>
    simp [compose, StressTriple.mk.injEq] <;>
    constructor <;> try constructor
  all_goals ring

/-- Claim C5: each of the nine predefined scenario names maps to exactly
the fixed triple of the spec's table, and every name outside the ten
recognized tags produces no triple (the Python dispatch falls through
and returns `None`). -/
theorem get_scenario_parameters_spec (custom : ℚ × ℚ × ℚ) :
    get_scenario_parameters custom "Baseline (No Stress)" = some (0, 0, 0) ∧
    get_scenario_parameters custom "Mild Recession" = some (1, 2, 3) ∧
    get_scenario_parameters custom "Severe Recession" = some (5/2, 5, 8) ∧
    get_scenario_parameters custom "Interest Rate Shock" = some (3, 0, 0) ∧
    get_scenario_parameters custom "Market Crash" = some (0, 0, 10) ∧
    get_scenario_parameters custom "Credit Crisis" = some (1/2, 8, 3) ∧
    get_scenario_parameters custom "Inflation Shock" = some (4, 1, 2) ∧
    get_scenario_parameters custom "Liquidity Stress" = some (0, 3, 5) ∧
    get_scenario_parameters custom "Currency Devaluation" = some (3/2, 5/2, 6) ∧
    (∀ name : String, name ∉ scenario_names →
      get_scenario_parameters custom name = none) := by
  refine ⟨by simp [get_scenario_parameters], by simp [get_scenario_parameters],
    by simp [get_scenario_parameters], by simp [get_scenario_parameters],
    by simp [get_scenario_parameters], by simp [get_scenario_parameters],
    by simp [get_scenario_parameters], by simp [get_scenario_parameters],
    by simp [get_scenario_parameters], ?_⟩
  intro name h
  simp only [scenario_names, List.mem_cons, List.not_mem_nil, or_false, not_or] at h
  obtain ⟨h1, h2, h3, h4, h5, h6, h7, h8, h9, h10⟩ := h
  simp [get_scenario_parameters, h1, h2, h3, h4, h5, h6, h7, h8, h9, h10]

/-- Witness for C5: "Mild Recession" looks up to (1, 2, 3), and the
unrecognized name "Stagflation" yields `none`. -/
theorem get_scenario_parameters_spec_witness :
    get_scenario_parameters (7, 8, 9) "Mild Recession" = some (1, 2, 3) ∧
    "Stagflation" ∉ scenario_names ∧
    get_scenario_parameters (7, 8, 9) "Stagflation" = none := by
  have h := get_scenario_parameters_spec (7, 8, 9)
  exact ⟨h.2.1, by simp [scenario_names],
    h.2.2.2.2.2.2.2.2.2 "Stagflation" (by simp [scenario_names])⟩

/-- Claim C6: a non-positive sample count yields no Monte Carlo summary:
`range(n)` is empty, the result list is empty, and the aggregation step
fails, so no summary is returned. -/
theorem run_monte_carlo_rejects_nonpositive (f : BankFinancials) (u : ℕ → ℚ)
    (n : ℤ) (hn : n ≤ 0) : run_monte_carlo f n u = none := by
  rw [run_monte_carlo, if_neg (fun hc => absurd hc.1 (not_lt.mpr hn)),
    Int.toNat_of_nonpos hn]
  rfl

/-- Witness for C6: sample counts 0 and -5 both produce no summary. -/
theorem run_monte_carlo_rejects_nonpositive_witness :
    run_monte_carlo ⟨1000, 1200, 1500, 12000⟩ 0 (fun _ => 0) = none ∧
    run_monte_carlo ⟨1000, 1200, 1500, 12000⟩ (-5) (fun _ => 0) = none :=
  ⟨run_monte_carlo_rejects_nonpositive _ _ 0 (by norm_num),
   run_monte_carlo_rejects_nonpositive _ _ (-5) (by norm_num)⟩

/-- Claim C7: with RWA = 0 the ratio division fails and `compute_result`
produces no result (no clamping, no default); with RWA ≠ 0 it succeeds. -/
theorem compute_result_division_by_zero (f : BankFinancials) (t : StressTriple) :
    (f.risk_weighted_assets = 0 → compute_result f t = none) ∧
    (f.risk_weighted_assets ≠ 0 → ∃ r, compute_result f t = some r) := by
  constructor
  · intro h
    rw [compute_result, if_pos h]
  · intro h
    exact ⟨_, by rw [compute_result, if_neg h]⟩

/-- Witness for C7: RWA = 0 gives no result; RWA = 12000 gives one. -/
theorem compute_result_division_by_zero_witness :
    compute_result ⟨1000, 1200, 1500, 0⟩ ⟨1, 2, 3⟩ = none ∧
    ∃ r, compute_result ⟨1000, 1200, 1500, 12000⟩ ⟨1, 2, 3⟩ = some r :=
  ⟨(compute_result_division_by_zero ⟨1000, 1200, 1500, 0⟩ ⟨1, 2, 3⟩).1 rfl,
   (compute_result_division_by_zero ⟨1000, 1200, 1500, 12000⟩ ⟨1, 2, 3⟩).2 (by norm_num)⟩

/-- Claim C2: with RWA > 0 and Tier-1 > 0, strictly increasing any
single field of the stress triple (holding the other two fixed)
strictly decreases the updated CET1 ratio returned by `compute_result`. -/
theorem compute_result_strict_anti (f : BankFinancials) (t : StressTriple) (d : ℚ)
    (hR : 0 < f.risk_weighted_assets) (hT : 0 < f.initial_tier1) (hd : 0 < d) :
    ∀ r r₁ r₂ r₃ : StressResult,
      compute_result f t = some r →
      compute_result f { t with interest_rate_hike := t.interest_rate_hike + d } = some r₁ →
      compute_result f { t with credit_loss_rate := t.credit_loss_rate + d } = some r₂ →
      compute_result f { t with market_shock := t.market_shock + d } = some r₃ →
      r₁.updated_cet1_ratio < r.updated_cet1_ratio ∧
      r₂.updated_cet1_ratio < r.updated_cet1_ratio ∧
      r₃.updated_cet1_ratio < r.updated_cet1_ratio := by
  intro r r₁ r₂ r₃ h h₁ h₂ h₃
  have hne : f.risk_weighted_assets ≠ 0 := ne_of_gt hR
  rw [compute_result, if_neg hne] at h h₁ h₂ h₃
  injection h with h
  injection h₁ with h₁
  injection h₂ with h₂
  injection h₃ with h₃
  subst h h₁ h₂ h₃
  simp only [updated_cet1]
  refine ⟨stress_ratio_lt hR ?_, stress_ratio_lt hR ?_, stress_ratio_lt hR ?_⟩ <;>
    simp only [total_losses, interest_rate_loss, credit_losses, market_shock_loss] <;>
    nlinarith [mul_pos hR hd, mul_pos hT hd]

/-- Witness for C2: on the spec's example financials and the Mild
Recession triple, bumping each field by 1 drops the updated CET1 ratio
(from 604/12000·100 to 484/12000·100, 484/12000·100, 592/12000·100). -/
theorem compute_result_strict_anti_witness :
    (484 / 12000 * 100 : ℚ) < 604 / 12000 * 100 ∧
    (484 / 12000 * 100 : ℚ) < 604 / 12000 * 100 ∧
    (592 / 12000 * 100 : ℚ) < 604 / 12000 * 100 :=
  compute_result_strict_anti ⟨1000, 1200, 1500, 12000⟩ ⟨1, 2, 3⟩ 1
    (by norm_num) (by norm_num) (by norm_num)
    ⟨120, 240, 36, 396, 604, 604 / 12000 * 100⟩
    ⟨240, 240, 36, 516, 484, 484 / 12000 * 100⟩
    ⟨120, 360, 36, 516, 484, 484 / 12000 * 100⟩
    ⟨120, 240, 48, 408, 592, 592 / 12000 * 100⟩
    (by rw [compute_result, if_neg (by norm_num)]
        norm_num [interest_rate_loss, credit_losses, market_shock_loss,
          total_losses, updated_cet1])
    (by rw [compute_result, if_neg (by norm_num)]
        norm_num [interest_rate_loss, credit_losses, market_shock_loss,
          total_losses, updated_cet1])
    (by rw [compute_result, if_neg (by norm_num)]
        norm_num [interest_rate_loss, credit_losses, market_shock_loss,
          total_losses, updated_cet1])
    (by rw [compute_result, if_neg (by norm_num)]
        norm_num [interest_rate_loss, credit_losses, market_shock_loss,
          total_losses, updated_cet1])

/-- Claim C4: the scenario-comparison path is a pure composition of
`compute_result`: its per-scenario ratios equal the
`updated_cet1_ratio` that `compute_result` returns on the same inputs,
the returned difference is the signed value ratio₂ - ratio₁, and with
the same triple twice the difference is 0. -/
theorem compare_refines_compute_result (f : BankFinancials) (ta tb : StressTriple)
    (ra rb : StressResult) (out : ℚ × ℚ × ℚ)
    (ha : compute_result f ta = some ra) (hb : compute_result f tb = some rb)
    (hc : compare_scenarios f ta tb = some out) :
    out.1 = ra.updated_cet1_ratio ∧
    out.2.1 = rb.updated_cet1_ratio ∧
    out.2.2 = rb.updated_cet1_ratio - ra.updated_cet1_ratio ∧
    (ta = tb → out.2.2 = 0) := by
  by_cases hR : f.risk_weighted_assets = 0
  · rw [compare_scenarios, if_pos hR] at hc
    exact absurd hc (by simp)
  · rw [compare_scenarios, if_neg hR] at hc
    rw [compute_result, if_neg hR] at ha hb
    injection ha with ha
    injection hb with hb
    injection hc with hc
    subst ha hb hc
    refine ⟨rfl, rfl, rfl, ?_⟩
    intro hab
    subst hab
    simp

/-- Witness for C4: comparing the Mild Recession triple against itself
on the spec's example financials gives equal per-scenario ratios and a
difference of 0. -/
theorem compare_refines_compute_result_witness :
    compare_scenarios ⟨1000, 1200, 1500, 12000⟩ ⟨1, 2, 3⟩ ⟨1, 2, 3⟩ =
      some (604 / 12000 * 100, 604 / 12000 * 100,
        604 / 12000 * 100 - 604 / 12000 * 100) ∧
    (604 / 12000 * 100 - 604 / 12000 * 100 : ℚ) = 0 := by
  have hcmp : compare_scenarios ⟨1000, 1200, 1500, 12000⟩ ⟨1, 2, 3⟩ ⟨1, 2, 3⟩ =
      some (604 / 12000 * 100, 604 / 12000 * 100,
        604 / 12000 * 100 - 604 / 12000 * 100) := by
    rw [compare_scenarios, if_neg (by norm_num)]
    norm_num [updated_cet1_ratio_scenario, total_losses_scenario]
  have h := compare_refines_compute_result ⟨1000, 1200, 1500, 12000⟩
    ⟨1, 2, 3⟩ ⟨1, 2, 3⟩
    ⟨120, 240, 36, 396, 604, 604 / 12000 * 100⟩
    ⟨120, 240, 36, 396, 604, 604 / 12000 * 100⟩
    (604 / 12000 * 100, 604 / 12000 * 100, 604 / 12000 * 100 - 604 / 12000 * 100)
    (by rw [compute_result, if_neg (by norm_num)]
        norm_num [interest_rate_loss, credit_losses, market_shock_loss,
          total_losses, updated_cet1])
    (by rw [compute_result, if_neg (by norm_num)]
        norm_num [interest_rate_loss, credit_losses, market_shock_loss,
          total_losses, updated_cet1])
    hcmp
  exact ⟨hcmp, h.2.2.2 rfl⟩

/-- Claim C10: with RWA > 0, Tier-1 ≥ 0, and an all-nonnegative stress
triple (as every Monte Carlo draw is), the updated CET1 ratio is at
most the unstressed baseline `(cet1 / RWA) * 100`, with equality
exactly when total losses are 0. -/
theorem compute_result_le_baseline (f : BankFinancials) (t : StressTriple)
    (r : StressResult) (hR : 0 < f.risk_weighted_assets)
    (hT : 0 ≤ f.initial_tier1)
    (h1 : 0 ≤ t.interest_rate_hike) (h2 : 0 ≤ t.credit_loss_rate)
    (h3 : 0 ≤ t.market_shock)
    (h : compute_result f t = some r) :
    r.updated_cet1_ratio ≤ (f.initial_cet1 / f.risk_weighted_assets) * 100 ∧
    (r.updated_cet1_ratio = (f.initial_cet1 / f.risk_weighted_assets) * 100 ↔
      r.total_losses = 0) := by
  have hne : f.risk_weighted_assets ≠ 0 := ne_of_gt hR
  rw [compute_result, if_neg hne] at h
  injection h with h
  subst h
  have hL : 0 ≤ total_losses f t := by
    simp only [total_losses, interest_rate_loss, credit_losses, market_shock_loss]
    have := hR.le
    positivity
  simp only [updated_cet1]
  constructor
  · have hdiv : (f.initial_cet1 - total_losses f t) / f.risk_weighted_assets ≤
        f.initial_cet1 / f.risk_weighted_assets :=
      (div_le_div_iff_of_pos_right hR).mpr (by linarith)
    linarith
  · constructor
    · intro he
      have h100 : ((f.initial_cet1 - total_losses f t) / f.risk_weighted_assets) =
          f.initial_cet1 / f.risk_weighted_assets := by linarith
      field_simp at h100
      linarith
    · intro he
      rw [he]
      ring

/-- Witness for C10: on the spec's example with the Mild Recession
triple, the stressed ratio 604/12000*100 is below the baseline
1000/12000*100, and equality would require zero total losses. -/
theorem compute_result_le_baseline_witness :
    ((604 / 12000 * 100 : ℚ) ≤ (1000 / 12000) * 100) ∧
    ((604 / 12000 * 100 : ℚ) = (1000 / 12000) * 100 ↔ (396 : ℚ) = 0) :=
  compute_result_le_baseline ⟨1000, 1200, 1500, 12000⟩ ⟨1, 2, 3⟩
    ⟨120, 240, 36, 396, 604, 604 / 12000 * 100⟩
    (by norm_num) (by norm_num) (by norm_num) (by norm_num) (by norm_num)
    (by rw [compute_result, if_neg (by norm_num)]
        norm_num [interest_rate_loss, credit_losses, market_shock_loss,
          total_losses, updated_cet1])

/-- Claim C8: for a positive sample count N (and nonzero RWA), the
Monte Carlo run returns a summary whose `ratios` is the full length-N
sequence in draw order, one entry per draw, each draw's triple sampled
per field from the scaled unit-interval stream (rate hike in [0,5),
credit loss and market shock in [0,10), from pairwise-distinct stream
positions), each ratio computed by the `compute_result` formula, with
mean the arithmetic mean and min/max the extrema of the ratios. -/
theorem run_monte_carlo_spec (f : BankFinancials) (n : ℤ) (u : ℕ → ℚ)
    (hn : 0 < n) (hR : f.risk_weighted_assets ≠ 0) :
    ∃ s, run_monte_carlo f n u = some s ∧
      s.sample_count = n ∧
      s.ratios = (List.range n.toNat).map
        (fun i => simulated_cet1_ratio f (simulated_triple u i)) ∧
      s.ratios.length = n.toNat ∧
      (∀ t r, compute_result f t = some r →
        simulated_cet1_ratio f t = r.updated_cet1_ratio) ∧
      ((∀ k, 0 ≤ u k ∧ u k < 1) → ∀ i : ℕ,
        0 ≤ (simulated_triple u i).interest_rate_hike ∧
        (simulated_triple u i).interest_rate_hike < 5 ∧
        0 ≤ (simulated_triple u i).credit_loss_rate ∧
        (simulated_triple u i).credit_loss_rate < 10 ∧
        0 ≤ (simulated_triple u i).market_shock ∧
        (simulated_triple u i).market_shock < 10) ∧
      s.mean = s.ratios.sum / (s.ratios.length : ℚ) ∧
      s.min ∈ s.ratios ∧ (∀ x ∈ s.ratios, s.min ≤ x) ∧
      s.max ∈ s.ratios ∧ (∀ x ∈ s.ratios, x ≤ s.max) := by
  have hcond : ¬(0 < n ∧ f.risk_weighted_assets = 0) := fun h => hR h.2
  obtain ⟨r, rs, hcons⟩ : ∃ r rs, (List.range n.toNat).map
      (fun i => simulated_cet1_ratio f (simulated_triple u i)) = r :: rs := by
    cases hc : (List.range n.toNat).map
        (fun i => simulated_cet1_ratio f (simulated_triple u i)) with
    | nil =>
      exfalso
      have hlen0 := congrArg List.length hc
      simp only [List.length_map, List.length_range, List.length_nil] at hlen0
      omega
    | cons a b => exact ⟨a, b, rfl⟩
  have hrun : run_monte_carlo f n u = some
      { sample_count := n
        ratios := r :: rs
        mean := (r :: rs).sum / ((r :: rs).length : ℚ)
        min := rs.foldl min r
        max := rs.foldl max r } := by
    rw [run_monte_carlo, if_neg hcond, hcons]
  refine ⟨_, hrun, rfl, hcons.symm, ?_, ?_, ?_, rfl, ?_, ?_, ?_, ?_⟩
  · rw [← hcons, List.length_map, List.length_range]
  · intro t r' h
    rw [compute_result, if_neg hR] at h
    injection h with h
    subst h
    rfl
  · intro hu i
    simp only [simulated_triple]
    have h0 := hu (3 * i)
    have h1 := hu (3 * i + 1)
    have h2 := hu (3 * i + 2)
    refine ⟨by linarith [h0.1], by linarith [h0.2], by linarith [h1.1],
      by linarith [h1.2], by linarith [h2.1], by linarith [h2.2]⟩
  · exact foldl_min_mem rs r
  · exact foldl_min_le rs r
  · exact mem_foldl_max rs r
  · exact le_foldl_max rs r

/-- Witness for C8: a concrete run with N = 2 on the spec's example
financials returns a summary with a length-2 ratio sequence. -/
theorem run_monte_carlo_spec_witness :
    (0 : ℤ) < 2 ∧
    (⟨1000, 1200, 1500, 12000⟩ : BankFinancials).risk_weighted_assets ≠ 0 ∧
    ∃ s, run_monte_carlo ⟨1000, 1200, 1500, 12000⟩ 2 (fun _ => 1/2) = some s ∧
      s.ratios.length = (2 : ℤ).toNat := by
  refine ⟨by norm_num, by norm_num, ?_⟩
  obtain ⟨s, h1, -, -, h4, -⟩ := run_monte_carlo_spec ⟨1000, 1200, 1500, 12000⟩ 2
    (fun _ => 1/2) (by norm_num) (by norm_num)
  exact ⟨s, h1, h4⟩

/-- Claim C9: the random source is an explicit injected stream, so the
run is a pure function of (financials, sample count, stream): equal
streams give identical results, and whenever a summary is produced its
mean lies within [min, max]. -/
theorem run_monte_carlo_deterministic_mean_in_range (f : BankFinancials)
    (n : ℤ) (u v : ℕ → ℚ) (s : SimulationSummary) :
    ((∀ k, u k = v k) → run_monte_carlo f n u = run_monte_carlo f n v) ∧
    (run_monte_carlo f n u = some s → s.min ≤ s.mean ∧ s.mean ≤ s.max) := by
  constructor
  · intro h
    rw [funext h]
  · intro h
    rw [run_monte_carlo] at h
    by_cases hc : 0 < n ∧ f.risk_weighted_assets = 0
    · rw [if_pos hc] at h
      exact absurd h (by simp)
    · rw [if_neg hc] at h
      cases hm : (List.range n.toNat).map
          (fun i => simulated_cet1_ratio f (simulated_triple u i)) with
      | nil =>
        rw [hm] at h
        exact absurd h (by simp)
      | cons r rs =>
        rw [hm] at h
        injection h with h
        subst h
        have hlen : (0 : ℚ) < (((r :: rs).length : ℕ) : ℚ) := by
          push_cast [List.length_cons]
          positivity
        constructor
        · show rs.foldl min r ≤ (r :: rs).sum / (((r :: rs).length : ℕ) : ℚ)
          rw [le_div_iff₀ hlen]
          have hmul := length_mul_le_sum (r :: rs) (rs.foldl min r) (foldl_min_le rs r)
          nlinarith [hmul]
        · show (r :: rs).sum / (((r :: rs).length : ℕ) : ℚ) ≤ rs.foldl max r
          rw [div_le_iff₀ hlen]
          have hmul := sum_le_length_mul (r :: rs) (rs.foldl max r) (le_foldl_max rs r)
          nlinarith [hmul]

/-- Witness for C9: on a concrete seeded run (N = 2, constant stream
1/2) the result equals itself under an equal stream, and the summary's
mean 1/3 lies within [1/3, 1/3]. -/
theorem run_monte_carlo_deterministic_mean_in_range_witness :
    run_monte_carlo ⟨1000, 1200, 1500, 12000⟩ 2 (fun _ => 1/2) =
      run_monte_carlo ⟨1000, 1200, 1500, 12000⟩ 2 (fun _ => 1/2) ∧
    ((⟨2, [1/3, 1/3], 1/3, 1/3, 1/3⟩ : SimulationSummary).min ≤
        (⟨2, [1/3, 1/3], 1/3, 1/3, 1/3⟩ : SimulationSummary).mean ∧
      (⟨2, [1/3, 1/3], 1/3, 1/3, 1/3⟩ : SimulationSummary).mean ≤
        (⟨2, [1/3, 1/3], 1/3, 1/3, 1/3⟩ : SimulationSummary).max) := by
  have heval : run_monte_carlo ⟨1000, 1200, 1500, 12000⟩ 2 (fun _ => 1/2) =
      some ⟨2, [1/3, 1/3], 1/3, 1/3, 1/3⟩ := by
    have hmap : (List.range (2 : ℤ).toNat).map
        (fun i => simulated_cet1_ratio ⟨1000, 1200, 1500, 12000⟩
          (simulated_triple (fun _ => 1/2) i)) = [1/3, 1/3] := by
      norm_num [simulated_cet1_ratio, simulated_triple, List.range_succ]
      rfl
    rw [run_monte_carlo, if_neg (by norm_num), hmap]
    norm_num [List.sum_cons]
  have h := run_monte_carlo_deterministic_mean_in_range ⟨1000, 1200, 1500, 12000⟩ 2
    (fun _ => 1/2) (fun _ => 1/2) ⟨2, [1/3, 1/3], 1/3, 1/3, 1/3⟩
  exact ⟨h.1 (fun _ => rfl), h.2 heval⟩
